import Mathlib

/-!
Verification of the interfacing-ClassLoader core of this repository.

The embedded code is `AsInterface` (an ASM `ClassVisitor`): its `visit`
appends the target interface to the class header's interface list, and
its `visitMethod` (present in one source version) pipes every method
descriptor through `translateDesc`, a regex replacement over the
descriptor string, returning the method visitor unchanged (so method
bodies pass through untouched).  The isolated loading context, the cast
insertion described by the design document, and the reflective bridge
are not part of the sources; where a claim needs them they are modelled
from the spec, and each such definition is marked `Modelled from the
spec:`.
-/

/-! ## Embedding of `AsInterface.translateDesc` (source: AsInterface, second version)

The Scala code is
  `val descReturnType = """\)L([a-zA-Z_0-9/]+);""".r`
  `def translateDesc(desc) = descReturnType.replaceAllIn(desc, _ => ")L" + ifaceSlashName + ";")`
i.e. a left-to-right scan replacing every occurrence of `)L<run>;`,
where `<run>` is a nonempty run of characters from `[a-zA-Z_0-9/]`,
by `)L<iface>;`.  `iface` is the interface's internal (slash-separated)
name, as produced by both `Type.getType(iface).getInternalName` and
`iface.getName.replaceAll(".", "/")` in the source. -/

def isIdentChar (c : Char) : Bool :=
  ('a' ≤ c && c ≤ 'z') || ('A' ≤ c && c ≤ 'Z') || ('0' ≤ c && c ≤ '9') || c == '_' || c == '/'

def translateChars (iface : List Char) : Nat → List Char → List Char
  | 0, cs => cs
  | _ + 1, [] => []
  | fuel + 1, ')' :: 'L' :: rest =>
    match rest.takeWhile isIdentChar, rest.dropWhile isIdentChar with
    | _ :: _, ';' :: tail => ')' :: 'L' :: (iface ++ ';' :: translateChars iface fuel tail)
    | _, _ => ')' :: translateChars iface fuel ('L' :: rest)
  | fuel + 1, c :: cs => c :: translateChars iface fuel cs

def translateDesc (iface : String) (desc : String) : String :=
  ⟨translateChars iface.data desc.data.length desc.data⟩

/-! ## Embedding of the class model and the `AsInterface` visitor -/

/-- One entry point (method) of a module unit: the arguments of ASM's
`visitMethod` plus the instruction body, which `AsInterface` returns
to the underlying writer unmodified. -/
structure MethodRec where
  access : Int
  name : String
  desc : String
  signature : Option String
  exceptions : List String
  body : List String
deriving DecidableEq

/-- A module unit (class file) as seen by the visitor: the arguments of
ASM's `visit` plus the method table. -/
structure ClassUnit where
  version : Int
  access : Int
  name : String
  signature : Option String
  superName : String
  interfaces : List String
  methods : List MethodRec
deriving DecidableEq

/-- `AsInterface.visitMethod`: forwards `access`, `name`, `signature`,
`exceptions` unchanged, passes `desc` through `translateDesc`, and
returns the delegate method visitor unmodified — so the body is
unchanged. -/
def visitMethodAs (iface : String) (m : MethodRec) : MethodRec :=
  { m with desc := translateDesc iface m.desc }

/-- The composite effect of driving a class through `AsInterface` with
target interface `iface` (given by its internal slash-separated name):
`visit` forwards every header argument unchanged except `interfaces`,
which becomes `interfaces :+ iface`; every method goes through
`visitMethodAs`. -/
def asInterface (iface : String) (u : ClassUnit) : ClassUnit :=
  { u with
    interfaces := u.interfaces ++ [iface],
    methods := u.methods.map (visitMethodAs iface) }

/-- Modelled from the spec: the Interfacing ClassLoader (not in the
sources; only the `AsInterface` visitor is) is constructed with a Map
from concrete class names to interface names and applies `AsInterface`
exactly to the units whose name appears in that registry; other units
load unchanged. -/
def rewriteUnit (registry : List (String × String)) (u : ClassUnit) : ClassUnit :=
  match List.lookup u.name registry with
  | some iface => asInterface iface u
  | none => u

/-! ## Modelled runtime values and the cast adapter (spec sections 4.2, 7, 8) -/

/-- Modelled from the spec: call-time errors of the adapted entry
points and the reflective bridge. -/
inductive RtError where
  | castFailure
  | noSuchOperation
deriving DecidableEq

/-- Modelled from the spec: a runtime value is either a primitive or an
object instance tagged with its concrete class name plus its state. -/
inductive Value where
  | vint : Int → Value
  | obj : String → Int → Value
deriving DecidableEq

def classOf : Value → Option String
  | Value.obj c _ => some c
  | Value.vint _ => none

/-- Modelled from the spec: the unconditional downcast (CHECKCAST)
inserted at the top of a rewritten entry point.  It succeeds exactly
when the incoming instance's concrete class is the cast target (the
spec's different-implementer scenario involves unrelated concrete
classes), and otherwise raises `CastFailure` as a typed error. -/
def checkcast (target : String) (v : Value) : Except RtError Value :=
  match v with
  | Value.obj c _ => if c = target then Except.ok v else Except.error RtError.castFailure
  | Value.vint _ => Except.error RtError.castFailure

/-- Modelled from the spec: a rewritten entry point whose declared
parameter type became the interface — it casts the incoming value back
to the original concrete type `C` and then runs the original body
unmodified beneath the cast. -/
def rewrittenEntry {α : Type} (C : String) (body : Value → Except RtError α)
    (v : Value) : Except RtError α :=
  match checkcast C v with
  | Except.ok w => body w
  | Except.error e => Except.error e

/-! ## Modelled Box / Boxed / Wrapper scenario (spec section 8) -/

/-- Modelled from the spec: which concrete classes conform to the
`Boxed` capability interface after rewriting — the mapped class `Box`
and one unrelated implementer authored by the caller. -/
def implementsRel (c i : String) : Bool :=
  i == "Boxed" && (c == "Box" || c == "OtherBoxed")

/-- Modelled from the spec: dynamic dispatch of the operation
`square(n) -> n*n`, defined on the concrete class `Box` only. -/
def squareOp (v : Value) (n : Int) : Except RtError Int :=
  match v with
  | Value.obj c _ => if c = "Box" then Except.ok (n * n) else Except.error RtError.noSuchOperation
  | Value.vint _ => Except.error RtError.noSuchOperation

/-- Modelled from the spec: the original entry point
`Wrapper(n).apply(b : Box) = b.square(n)`. -/
def wrapperApplyOrig (n : Int) (b : Value) : Except RtError Int :=
  squareOp b n

/-- Modelled from the spec: the interface-typed overload of `apply`
produced by the rewrite — cast the `Boxed` argument to `Box` and
forward to the original entry point. -/
def wrapperApplyBoxed (n : Int) : Value → Except RtError Int :=
  rewrittenEntry "Box" (wrapperApplyOrig n)

/-! ## Modelled isolated loading context (spec sections 4.1, 6) -/

/-- The context's runtime-visible proxy for a defined unit. -/
structure TypeHandle where
  name : String
  unit : ClassUnit
deriving DecidableEq

/-- Modelled from the spec: the outcome of `resolve`; `rewriteFailed`
covers malformed units (never produced by the total model rewriter). -/
inductive Resolution where
  | resolved : TypeHandle → Resolution
  | notFound : Resolution
  | rewriteFailed : Resolution
deriving DecidableEq

/-- Modelled from the spec: the Isolated Loading Context — a read-only
module source, the caller-supplied interface registry, the private
cache of defined units, and a log of raw-unit reads (each read of a
unit's byte form appends its name). -/
structure Context where
  source : List (String × ClassUnit)
  registry : List (String × String)
  cache : List (String × TypeHandle)
  reads : List String
deriving DecidableEq

/-- Modelled from the spec: `resolve(name)` — answer from the cache
when possible; otherwise read the raw unit from the module source,
rewrite it with the registry, define it into the private cache, and
return the new handle; names absent from the source fail with
`NotFound` and change nothing. -/
def resolve (ctx : Context) (name : String) : Resolution × Context :=
  match List.lookup name ctx.cache with
  | some h => (Resolution.resolved h, ctx)
  | none =>
    match List.lookup name ctx.source with
    | none => (Resolution.notFound, ctx)
    | some raw =>
      let h : TypeHandle := ⟨name, rewriteUnit ctx.registry raw⟩
      (Resolution.resolved h,
        { ctx with cache := (name, h) :: ctx.cache, reads := name :: ctx.reads })

/-! ## Concrete units from the repository's worked example -/

/-- The method `C.x(b: B): Int` with descriptor `(Lio/treeverse/utils/B;)I`
and the body shown in the repository's assembler listing. -/
def methodX : MethodRec :=
  { access := 1, name := "x", desc := "(Lio/treeverse/utils/B;)I", signature := none,
    exceptions := [],
    body := ["aload_1", "bipush 11", "invokevirtual io/treeverse/utils/B.a:(I)I", "ireturn"] }

/-- The class `io/treeverse/utils/C` of the repository's example. -/
def unitC : ClassUnit :=
  { version := 52, access := 33, name := "io/treeverse/utils/C", signature := none,
    superName := "java/lang/Object", interfaces := [], methods := [methodX] }

/-- The registry of the repository's example: `B` is exported through
interface `A` and `C` through interface `D`. -/
def regExample : List (String × String) :=
  [("io/treeverse/utils/B", "io/treeverse/utils/A"),
   ("io/treeverse/utils/C", "io/treeverse/utils/D")]

/-- A method whose return type is the mapped class `B`. -/
def methodGetB : MethodRec :=
  { access := 1, name := "getB", desc := "(I)Lio/treeverse/utils/B;", signature := none,
    exceptions := [], body := ["areturn"] }

/-- A method whose return type is an unmapped class. -/
def methodToText : MethodRec :=
  { access := 1, name := "toText", desc := "()Ljava/lang/String;", signature := none,
    exceptions := [], body := ["areturn"] }

/-- A method whose mapped parameter type is nested inside an array type. -/
def methodNestedY : MethodRec :=
  { access := 1, name := "y", desc := "([Lio/treeverse/utils/B;)V", signature := none,
    exceptions := [], body := ["return"] }

/-- A class holding only the array-parameter method. -/
def nestedUnit : ClassUnit :=
  { version := 52, access := 33, name := "io/treeverse/utils/E", signature := none,
    superName := "java/lang/Object", interfaces := [], methods := [methodNestedY] }

/-- The class `io/treeverse/utils/B` of the repository's example. -/
def unitB : ClassUnit :=
  { version := 52, access := 33, name := "io/treeverse/utils/B", signature := none,
    superName := "java/lang/Object", interfaces := [],
    methods := [{ access := 1, name := "a", desc := "(I)I", signature := none,
                  exceptions := [], body := ["iload_1", "iload_1", "imul", "ireturn"] }] }

/-- A fresh context whose module source holds only `B`. -/
def ctx0 : Context :=
  { source := [("io/treeverse/utils/B", unitB)],
    registry := [("io/treeverse/utils/B", "io/treeverse/utils/A")],
    cache := [], reads := [] }

/-- The handle `ctx0` defines for `B` on first resolution. -/
def handleB : TypeHandle :=
  ⟨"io/treeverse/utils/B", rewriteUnit ctx0.registry unitB⟩

/-- The context after the first resolution of `B`. -/
def ctx1 : Context :=
  { ctx0 with cache := [("io/treeverse/utils/B", handleB)], reads := ["io/treeverse/utils/B"] }

/-! ## Theorems for the claims -/

/-- C1: the claim says an entry point with a direct parameter of mapped
concrete type `C` has its declared parameter type changed to the
interface and an unconditional cast prepended to its body.  The code
does neither: on the repository's own example (`C.x(b: B): Int`, with
`B` mapped to `A`), the emitted method is byte-for-byte the original —
`translateDesc` only matches after the closing parenthesis, so the
parameter descriptor stays `B` and no cast instruction is inserted.
This contradicts the repository's design document and the code's own
BUG marker. -/
theorem param_rewrite_missing_on_code :
    List.lookup "io/treeverse/utils/B" regExample = some "io/treeverse/utils/A" ∧
    methodX.desc = "(Lio/treeverse/utils/B;)I" ∧
    (rewriteUnit regExample unitC).methods = [methodX] := by decide

/-- C2: the claim says the rewriter never changes a return type.  The
code's `translateDesc` rewrites every reference return type — mapped or
not — to the target interface: `(I)Lio/treeverse/utils/B;` becomes
`(I)Lio/treeverse/utils/A;`, and even the unmapped
`()Ljava/lang/String;` becomes `()Lio/treeverse/utils/A;`.  This
contradicts the design document (return types are safely covariant and
left alone) and the code's own BUG marker. -/
theorem return_type_rewritten_by_code :
    (visitMethodAs "io/treeverse/utils/A" methodGetB).desc = "(I)Lio/treeverse/utils/A;" ∧
    methodGetB.desc = "(I)Lio/treeverse/utils/B;" ∧
    (visitMethodAs "io/treeverse/utils/A" methodToText).desc = "()Lio/treeverse/utils/A;" ∧
    methodToText.desc = "()Ljava/lang/String;" := by decide

/-- C3: for every unit whose name appears in the registry, the
rewritten unit's declared interface list is exactly the original list
with the mapped interface appended at the end — nothing else is added
or removed. -/
theorem conformance_injection_appends (registry : List (String × String))
    (u : ClassUnit) (iface : String)
    (h : List.lookup u.name registry = some iface) :
    (rewriteUnit registry u).interfaces = u.interfaces ++ [iface] := by
  simp [rewriteUnit, h, asInterface]

theorem conformance_injection_appends_witness :
    (rewriteUnit regExample unitC).interfaces
      = unitC.interfaces ++ ["io/treeverse/utils/D"] :=
  conformance_injection_appends regExample unitC "io/treeverse/utils/D" (by decide)

/-- C4: a rewritten entry point with mapped direct parameter of
concrete type `C`, invoked with an instance of any other implementer of
the interface `I`, deterministically returns the typed error
`CastFailure`; the body never runs, so no state is touched and the
error is surfaced, not swallowed. -/
theorem wrong_implementer_cast_failure {α : Type} (C I D : String) (s : Int)
    (impls : String → String → Bool) (body : Value → Except RtError α)
    (_hImpl : impls D I = true) (hne : D ≠ C) :
    rewrittenEntry C body (Value.obj D s) = Except.error RtError.castFailure := by
  simp [rewrittenEntry, checkcast, hne]

theorem wrong_implementer_cast_failure_witness :
    implementsRel "OtherBoxed" "Boxed" = true ∧ "OtherBoxed" ≠ "Box" ∧
    rewrittenEntry "Box" (wrapperApplyOrig 11) (Value.obj "OtherBoxed" 0)
      = Except.error RtError.castFailure :=
  ⟨by decide, by decide,
    wrong_implementer_cast_failure "Box" "Boxed" "OtherBoxed" 0 implementsRel
      (wrapperApplyOrig 11) (by decide) (by decide)⟩

/-- C5: in the Box/Boxed/Wrapper scenario, the interface-typed overload
of `apply`, called with a `Boxed`-conforming `Box` instance and
`n = 11`, returns `121`; called with the unrelated `Boxed` implementer,
it raises `CastFailure`. -/
theorem box_wrapper_scenario :
    wrapperApplyBoxed 11 (Value.obj "Box" 0) = Except.ok 121 ∧
    implementsRel "Box" "Boxed" = true ∧
    implementsRel "OtherBoxed" "Boxed" = true ∧
    wrapperApplyBoxed 11 (Value.obj "OtherBoxed" 0)
      = Except.error RtError.castFailure :=
  ⟨by rfl, by decide, by decide, by rfl⟩

/-- C6: invoking the rewritten entry point with an instance of the
correct concrete class produces the result of the original,
unrewritten entry point on the same arguments. -/
theorem rewritten_refines_original {α : Type} (C : String)
    (body : Value → Except RtError α) (v : Value)
    (h : classOf v = some C) :
    rewrittenEntry C body v = body v := by
  cases v with
  | vint n => simp [classOf] at h
  | obj c s =>
    simp only [classOf, Option.some.injEq] at h
    simp [rewrittenEntry, checkcast, h]

theorem rewritten_refines_original_witness :
    rewrittenEntry "Box" (wrapperApplyOrig 11) (Value.obj "Box" 0)
      = wrapperApplyOrig 11 (Value.obj "Box" 0) :=
  rewritten_refines_original "Box" (wrapperApplyOrig 11) (Value.obj "Box" 0) (by decide)

/-- C7 counterexample: the claim says that an entry point whose mapped
parameter type is nested inside an array type is adapted by
synthesizing a second overload (and, on collision, recording
AmbiguousOverload).  On a unit whose one method is
`y([Lio/treeverse/utils/B;)V` the rewriter emits exactly the original
single method: no overload is synthesized and the method table does not
grow to two entries. -/
theorem nested_param_no_overload_counterexample :
    nestedUnit.methods = [methodNestedY] ∧
    (asInterface "io/treeverse/utils/A" nestedUnit).methods = [methodNestedY] ∧
    (asInterface "io/treeverse/utils/A" nestedUnit).methods.length ≠ 2 := by decide

/-- C7 amended: the rewriter never synthesizes overloads at all — it
maps the method table one-to-one, preserving each entry point's name
and body (only the descriptor goes through `translateDesc`), so
entry points with nested mapped parameter types are left as-is and no
AmbiguousOverload condition exists. -/
theorem rewrite_is_method_preserving (iface : String) (u : ClassUnit) :
    (asInterface iface u).methods.length = u.methods.length ∧
    (asInterface iface u).methods.map MethodRec.name = u.methods.map MethodRec.name ∧
    (asInterface iface u).methods.map MethodRec.body = u.methods.map MethodRec.body := by
  refine ⟨?_, ?_, ?_⟩ <;>
    simp [asInterface, visitMethodAs, List.map_map, Function.comp_def]

/-- C8: `resolve` is idempotent — once a name resolves to a handle, a
second resolve of the same name returns the same handle and leaves the
context unchanged, and the raw unit has been read (hence rewritten and
defined) at most once more than before. -/
theorem resolve_idempotent (ctx : Context) (name : String) (h : TypeHandle)
    (ctx' : Context)
    (hres : resolve ctx name = (Resolution.resolved h, ctx')) :
    resolve ctx' name = (Resolution.resolved h, ctx') ∧
    ctx'.reads.count name ≤ ctx.reads.count name + 1 := by
  unfold resolve at hres
  cases hc : List.lookup name ctx.cache with
  | some h0 =>
    rw [hc] at hres
    simp only [Prod.mk.injEq, Resolution.resolved.injEq] at hres
    obtain ⟨rfl, rfl⟩ := hres
    constructor
    · unfold resolve
      rw [hc]
    · exact Nat.le_succ _
  | none =>
    rw [hc] at hres
    cases hs : List.lookup name ctx.source with
    | none =>
      rw [hs] at hres
      simp at hres
    | some raw =>
      rw [hs] at hres
      simp only [Prod.mk.injEq, Resolution.resolved.injEq] at hres
      obtain ⟨rfl, rfl⟩ := hres
      constructor
      · unfold resolve
        simp [List.lookup]
      · simp [List.count_cons]

theorem resolve_idempotent_witness :
    resolve ctx1 "io/treeverse/utils/B" = (Resolution.resolved handleB, ctx1) ∧
    ctx1.reads.count "io/treeverse/utils/B" ≤ ctx0.reads.count "io/treeverse/utils/B" + 1 :=
  resolve_idempotent ctx0 "io/treeverse/utils/B" handleB ctx1 (by decide)

/-- C9: resolving a name absent from the module source (and not yet in
the private cache) returns `NotFound` and leaves the context — cache
included — untouched, and a second resolve of the same name fails the
same way. -/
theorem resolve_absent_not_found (ctx : Context) (name : String)
    (hs : List.lookup name ctx.source = none)
    (hc : List.lookup name ctx.cache = none) :
    resolve ctx name = (Resolution.notFound, ctx) ∧
    resolve (resolve ctx name).2 name = (Resolution.notFound, ctx) := by
  have h1 : resolve ctx name = (Resolution.notFound, ctx) := by
    unfold resolve
    rw [hc, hs]
  exact ⟨h1, by rw [h1]; exact h1⟩

theorem resolve_absent_not_found_witness :
    resolve ctx0 "org/rocksdb/Missing" = (Resolution.notFound, ctx0) ∧
    resolve (resolve ctx0 "org/rocksdb/Missing").2 "org/rocksdb/Missing"
      = (Resolution.notFound, ctx0) :=
  resolve_absent_not_found ctx0 "org/rocksdb/Missing" (by decide) (by decide)

/-- C10: the class-header rewrite is frame-preserving — the emitted
version, access flags, class name, generic signature and super-class
name equal the originals, and the emitted interface list is the
original list, in order, followed by exactly the mapped interface. -/
theorem visit_preserves_header (iface : String) (u : ClassUnit) :
    (asInterface iface u).version = u.version ∧
    (asInterface iface u).access = u.access ∧
    (asInterface iface u).name = u.name ∧
    (asInterface iface u).signature = u.signature ∧
    (asInterface iface u).superName = u.superName ∧
    (asInterface iface u).interfaces = u.interfaces ++ [iface] := by
  simp [asInterface]
